import Mathlib

/-!
Shallow embedding of the OlegBot decision pipeline (oleg_bot/bot/store.py,
tone.py, decision.py).  Timestamps and clock readings are rationals
(seconds); Python float("inf") for the time-since-last-bot-message signal
is modelled by an explicit `TimeSince.inf` constructor.  Log/reasoning
strings of DecisionResult are omitted (they carry no control flow for the
properties below); random draws of rules 5 and 6 are passed in explicitly.
-/

namespace OlegBot

/-! Embedding of store.py -/

/-- StoredMessage dataclass from store.py.  `text` is `str | None`;
`timestamp` is a point in time in seconds. -/
structure StoredMessage where
  message_id : Int
  chat_id : Int
  user_id : Int
  text : Option String
  timestamp : ℚ
  is_bot_message : Bool := false
  reply_to_message_id : Option Int := none
deriving DecidableEq

/-- SlidingWindowStore state: the per-chat windows (the LRU bookkeeping and
cleanup fields do not affect the read operations verified here). -/
structure SlidingWindowStore where
  chat_windows : List (Int × List StoredMessage)
deriving DecidableEq

/-- The window stored for a chat, `[]` for an unknown chat. -/
def get_window (st : SlidingWindowStore) (chat_id : Int) : List StoredMessage :=
  match st.chat_windows.find? (fun p => p.1 == chat_id) with
  | none => []
  | some p => p.2

/-- SlidingWindowStore.get_messages: unknown chat gives `[]`; a truthy
`limit` (i.e. `some l` with `l ≠ 0`) keeps the last `l` messages
(Python slice `messages[-limit:]`); `None` and `0` keep everything. -/
def get_messages (st : SlidingWindowStore) (chat_id : Int)
    (limit : Option Nat) : List StoredMessage :=
  match st.chat_windows.find? (fun p => p.1 == chat_id) with
  | none => []
  | some p =>
    let messages := p.2
    match limit with
    | some l => if l ≠ 0 then messages.drop (messages.length - l) else messages
    | none => messages

/-- The list comprehension `[msg.text for msg in messages if msg.text]`:
texts that are present and non-empty (Python truthiness). -/
def texts_of (messages : List StoredMessage) : List String :=
  messages.filterMap (fun m =>
    match m.text with
    | some s => if s = "" then none else some s
    | none => none)

/-- SlidingWindowStore.get_recent_text. -/
def get_recent_text (st : SlidingWindowStore) (chat_id : Int)
    (limit : Nat) : String :=
  String.intercalate " " (texts_of (get_messages st chat_id (some limit)))

/-- The loop body of has_recent_bot_message: scan a list (already reversed,
newest first), stop at the first bot message and compare its age. -/
def bot_scan (now seconds : ℚ) : List StoredMessage → Bool
  | [] => false
  | m :: rest =>
    if m.is_bot_message then decide (now - m.timestamp ≤ seconds)
    else bot_scan now seconds rest

/-- SlidingWindowStore.has_recent_bot_message. -/
def has_recent_bot_message (st : SlidingWindowStore) (chat_id : Int)
    (now seconds : ℚ) : Bool :=
  bot_scan now seconds (get_messages st chat_id none).reverse

/-- Specification-side view: the most recent bot-authored message of a
window, defined structurally (latest occurrence wins). -/
def most_recent_bot : List StoredMessage → Option StoredMessage
  | [] => none
  | m :: rest =>
    match most_recent_bot rest with
    | some m2 => some m2
    | none => if m.is_bot_message then some m else none

/-! Embedding of decision.py: actions, results, time signal -/

/-- ResponseAction enum. -/
inductive ResponseAction where
  | reply
  | react
  | ignore
deriving DecidableEq

/-- DecisionResult (the free-text `reasoning` log field is omitted). -/
structure DecisionResult where
  action : ResponseAction
  confidence : ℚ
  should_process : Bool
deriving DecidableEq

/-- Seconds since the last bot message: a finite value or float("inf"). -/
inductive TimeSince where
  | fin (t : ℚ)
  | inf
deriving DecidableEq

/-- Python `time_since >= gap` (inf compares greater than everything). -/
def TimeSince.geQ : TimeSince → ℚ → Bool
  | .inf, _ => true
  | .fin t, g => decide (g ≤ t)

/-- Python `time_since < gap` (inf is never below a finite gap). -/
def TimeSince.ltQ : TimeSince → ℚ → Bool
  | .inf, _ => false
  | .fin t, g => decide (t < g)

/-- DecisionEngine configuration (the field `reply_target` embeds
`reply_target_ratio` from the source; `bot_username` is stored
lowercased, as `__init__` does). -/
structure EngineConfig where
  bot_username : String
  reply_target : ℚ
  gap_min_seconds : ℚ
  topic_heat_threshold : ℚ
  reaction_probability : ℚ
deriving DecidableEq

/-- The DecisionEngine defaults. -/
def default_engine_config : EngineConfig :=
  { bot_username := "oleg_bot"
    reply_target := 1/10
    gap_min_seconds := 20
    topic_heat_threshold := 6/10
    reaction_probability := 3/10 }

/-! Embedding of decision.py: direct-mention regex search -/

/-- A regex word character `\w` (ASCII fragment: alphanumeric or
underscore), as used by the `\b` boundaries in `_is_direct_mention`. -/
def is_word_char (c : Char) : Bool := c.isAlphanum || c == '_'

/-- The literal token `tok` occurs at index `i` of `s`. -/
def matches_at (tok s : List Char) (i : Nat) : Bool :=
  tok.isPrefixOf (s.drop i)

/-- A `\b` word boundary holds just after index position `j` (end of
string, or the character there is not a word character). -/
def boundary_after (s : List Char) (j : Nat) : Bool :=
  !is_word_char (s.getD j ' ') || decide (s.length ≤ j)

/-- A `\b` word boundary holds just before index `i`. -/
def boundary_before (s : List Char) (i : Nat) : Bool :=
  i == 0 || !is_word_char (s.getD (i - 1) ' ')

/-- re.search for the pattern `tok\b` (used for `@username\b`). -/
def search_tok_boundary (tok s : List Char) : Bool :=
  (List.range (s.length + 1)).any (fun i =>
    matches_at tok s i && boundary_after s (i + tok.length))

/-- re.search for the pattern `\btok\b` (tok starts and ends with word
characters, so `\b` amounts to the neighbour not being a word char). -/
def search_word (tok s : List Char) : Bool :=
  (List.range (s.length + 1)).any (fun i =>
    matches_at tok s i && boundary_before s i &&
      boundary_after s (i + tok.length))

/-- DecisionEngine._is_direct_mention: empty text never matches; otherwise
search the lowercased text for `@username\b`, `\busername\b`, `\bbot\b`
and `\boleg\b`. -/
def is_direct_mention (bot_username : String) (text : String) : Bool :=
  if text = "" then false
  else
    let tl := text.toList.map Char.toLower
    let uname := bot_username.toList
    search_tok_boundary ('@' :: uname) tl ||
      (search_word uname tl || search_word "bot".toList tl ||
        search_word "oleg".toList tl)

/-! Embedding of decision.py: rule cascade -/

/-- The DecisionContext fields consumed by `_apply_decision_rules`. -/
structure DecisionContext where
  is_direct_mention : Bool
  is_reply_to_bot : Bool
  topic_heat : ℚ
  time_since_last_bot_message : TimeSince
  current_quota_usage : ℚ
deriving DecidableEq

/-- DecisionEngine._apply_decision_rules: the ordered first-match rule
cascade.  `r5` and `r6` are the `random.random()` draws of rules 5 and 6. -/
def apply_decision_rules (cfg : EngineConfig) (ctx : DecisionContext)
    (r5 r6 : ℚ) : DecisionResult :=
  if ctx.is_direct_mention then
    if ctx.time_since_last_bot_message.geQ cfg.gap_min_seconds then
      ⟨.reply, 95/100, true⟩
    else
      ⟨.react, 8/10, true⟩
  else if ctx.is_reply_to_bot then
    if ctx.time_since_last_bot_message.geQ cfg.gap_min_seconds then
      ⟨.reply, 9/10, true⟩
    else
      ⟨.react, 7/10, true⟩
  else if ctx.time_since_last_bot_message.ltQ cfg.gap_min_seconds then
    ⟨.ignore, 9/10, false⟩
  else if ctx.current_quota_usage ≥ cfg.reply_target then
    ⟨.ignore, 8/10, false⟩
  else if ctx.topic_heat ≥ cfg.topic_heat_threshold then
    if r5 < cfg.reaction_probability then ⟨.react, 6/10, true⟩
    else ⟨.reply, 6/10, true⟩
  else
    let remaining := cfg.reply_target - ctx.current_quota_usage
    if remaining > 0 then
      if r6 < min (remaining * 2) (1/10) then ⟨.reply, 4/10, true⟩
      else ⟨.ignore, 5/10, false⟩
    else ⟨.ignore, 5/10, false⟩

/-! Embedding of decision.py: topic heat, pacing signal, quota state -/

/-- Python truthiness of `msg.reply_to_message_id` (None and 0 are falsy). -/
def truthy_reply (m : StoredMessage) : Bool :=
  match m.reply_to_message_id with
  | some i => decide (i ≠ 0)
  | none => false

/-- DecisionEngine._calculate_topic_heat, with `now` the reading of
`datetime.now()` and timestamps in seconds (5 minutes = 300 s).  The set
of user ids is modelled by deduplication of the id list. -/
def calculate_topic_heat (now : ℚ) (recent_messages : List StoredMessage) : ℚ :=
  if recent_messages.length < 2 then 0
  else
    let active_messages := recent_messages.filter
      (fun m => decide (now - m.timestamp ≤ 300))
    if active_messages.isEmpty then 0
    else
      let message_rate : ℚ := (active_messages.length : ℚ) / 5
      let unique_users : ℚ :=
        (((active_messages.map (fun m => m.user_id)).dedup).length : ℚ)
      let user_diversity_boost : ℚ := min (unique_users / 3) 1
      let reply_count : ℚ :=
        ((active_messages.filter truthy_reply).length : ℚ)
      let reply_boost : ℚ :=
        min (reply_count / (active_messages.length : ℚ)) (1/2)
      let heat := message_rate * (4/10) + user_diversity_boost * (4/10) +
        reply_boost * (2/10)
      min (heat / 2) 1

/-- DecisionEngine._time_since_last_bot_message: a finite age only when the
store reports a bot message within the last hour; otherwise inf.  The
lookup re-reads the last 50 messages and takes the newest bot one. -/
def time_since_last_bot_message (st : SlidingWindowStore) (chat_id : Int)
    (now : ℚ) : TimeSince :=
  if has_recent_bot_message st chat_id now 3600 then
    match (get_messages st chat_id (some 50)).reverse.find?
        (fun m => m.is_bot_message) with
    | some m => .fin (now - m.timestamp)
    | none => .inf
  else .inf

/-- The quota tracking fields of the engine. -/
structure QuotaState where
  message_count : Nat
  reply_count : Nat
  last_reset_time : ℚ
deriving DecidableEq

/-- The reset check at the top of `_get_current_quota_usage`
(`_reset_interval` is the hard-coded 3600 seconds). -/
def reset_if_due (now : ℚ) (s : QuotaState) : QuotaState :=
  if now - s.last_reset_time ≥ 3600 then ⟨0, 0, now⟩ else s

/-- DecisionEngine._get_current_quota_usage: lazily resets, then returns
the usage together with the (possibly reset) state. -/
def get_current_quota_usage (now : ℚ) (s : QuotaState) : ℚ × QuotaState :=
  let s2 := reset_if_due now s
  (if s2.message_count = 0 then 0
   else (s2.reply_count : ℚ) / (s2.message_count : ℚ), s2)

/-- DecisionEngine._update_state. -/
def update_state (decision : DecisionResult) (s : QuotaState) : QuotaState :=
  { s with
    message_count := s.message_count + 1
    reply_count :=
      if decision.action = .reply then s.reply_count + 1 else s.reply_count }

/-- The per-call inputs of one `should_respond` evaluation that come from
outside the quota state: the wall clock, the message text, and the
store/context signals (already computed by `_build_context`) plus the two
random draws. -/
structure CallInput where
  now : ℚ
  text : String
  is_reply_to_bot : Bool
  topic_heat : ℚ
  time_since : TimeSince
  r5 : ℚ
  r6 : ℚ

/-- One `should_respond` call as it touches the quota state: lazy quota
read (with reset side effect), rule cascade, then `_update_state`. -/
def should_respond_step (cfg : EngineConfig) (s : QuotaState)
    (inp : CallInput) : DecisionResult × QuotaState :=
  let read := get_current_quota_usage inp.now s
  let ctx : DecisionContext :=
    { is_direct_mention := is_direct_mention cfg.bot_username inp.text
      is_reply_to_bot := inp.is_reply_to_bot
      topic_heat := inp.topic_heat
      time_since_last_bot_message := inp.time_since
      current_quota_usage := read.1 }
  let decision := apply_decision_rules cfg ctx inp.r5 inp.r6
  (decision, update_state decision read.2)

/-- The quota state of a fresh engine (`__init__` at wall-clock time t0). -/
def init_quota_state (t0 : ℚ) : QuotaState := ⟨0, 0, t0⟩

/-- Run a sequence of `should_respond` calls against the quota state. -/
def run_calls (cfg : EngineConfig) (s : QuotaState) :
    List CallInput → QuotaState
  | [] => s
  | inp :: rest => run_calls cfg (should_respond_step cfg s inp).2 rest

/-! Embedding of tone.py -/

/-- ToneHints dataclass. -/
structure ToneHints where
  emoji_density : ℚ
  formality_level : String
  avg_message_length : ℚ
  has_high_emoji : Bool
deriving DecidableEq

/-- ToneAnalyzer thresholds. -/
structure ToneConfig where
  high_emoji_threshold : ℚ
  formal_length_threshold : ℚ
deriving DecidableEq

/-- The ToneAnalyzer defaults (2% emoji, 18 words). -/
def default_tone_config : ToneConfig := ⟨2/100, 18⟩

/-- Membership in the emoji character class of `_calculate_emoji_density`
(the union of the six code-point ranges of the regex). -/
def is_emoji_char (c : Char) : Bool :=
  let n := c.toNat
  (0x1F600 ≤ n && n ≤ 0x1F64F) || (0x1F300 ≤ n && n ≤ 0x1F5FF) ||
    (0x1F680 ≤ n && n ≤ 0x1F6FF) || (0x1F1E0 ≤ n && n ≤ 0x1F1FF) ||
    (0x2702 ≤ n && n ≤ 0x27B0) || (0x24C2 ≤ n && n ≤ 0x1F251)

/-- ToneAnalyzer._calculate_emoji_density: emoji characters over total
characters, 0 when there are no characters at all. -/
def calculate_emoji_density (messages : List String) : ℚ :=
  let total_chars := (messages.map (fun s => s.length)).sum
  let emoji_chars :=
    (messages.map (fun s => (s.toList.filter is_emoji_char).length)).sum
  if total_chars = 0 then 0 else (emoji_chars : ℚ) / (total_chars : ℚ)

/-- Python `message.split()`: maximal whitespace-free chunks. -/
def word_count (s : String) : Nat :=
  ((s.split Char.isWhitespace).filter (fun w => w ≠ "")).length

/-- ToneAnalyzer._calculate_avg_message_length. -/
def calculate_avg_message_length (messages : List String) : ℚ :=
  if messages.isEmpty then 0
  else ((messages.map word_count).sum : ℚ) / (messages.length : ℚ)

/-- The filter `[msg for msg in messages if msg and msg.strip()]`. -/
def valid_messages (messages : List String) : List String :=
  messages.filter (fun s =>
    decide (s ≠ "") && s.toList.any (fun c => !c.isWhitespace))

/-- ToneAnalyzer.analyze_tone. -/
def analyze_tone (cfg : ToneConfig) (messages : List String) : ToneHints :=
  if messages.isEmpty then ⟨0, "casual", 0, false⟩
  else
    let valid := valid_messages messages
    if valid.isEmpty then ⟨0, "casual", 0, false⟩
    else
      let emoji_density := calculate_emoji_density valid
      let avg_length := calculate_avg_message_length valid
      { emoji_density := emoji_density
        formality_level :=
          if avg_length > cfg.formal_length_threshold then "formal"
          else "casual"
        avg_message_length := avg_length
        has_high_emoji := decide (emoji_density > cfg.high_emoji_threshold) }

/-! Specification-side definitions

These restate what the specification text claims, in its own words, to be
compared with the definitions embedded from the source above. -/

/-- Topic heat exactly as the specification sentence words it:
`min((0.4*(n/5) + 0.4*min(u/3,1) + 0.2*min(r/n,0.5))/2, 1)` with `r` the
count of windowed messages that carry a `reply_to_message_id`. -/
def topic_heat_claimed (now : ℚ) (recent_messages : List StoredMessage) : ℚ :=
  if recent_messages.length < 2 then 0
  else
    let w := recent_messages.filter (fun m => decide (now - m.timestamp ≤ 300))
    if w.isEmpty then 0
    else
      let n : ℚ := (w.length : ℚ)
      let u : ℚ := (((w.map (fun m => m.user_id)).dedup).length : ℚ)
      let r : ℚ :=
        ((w.filter (fun m => m.reply_to_message_id.isSome)).length : ℚ)
      min ((4/10 * (n / 5) + 4/10 * min (u / 3) 1 +
        2/10 * min (r / n) (1/2)) / 2) 1

/-- The topic-heat formula amended minimally: `r` counts only messages
whose `reply_to_message_id` is present AND nonzero (Python truthiness of
the id, which is what the source tests). -/
def topic_heat_amended (now : ℚ) (recent_messages : List StoredMessage) : ℚ :=
  if recent_messages.length < 2 then 0
  else
    let w := recent_messages.filter (fun m => decide (now - m.timestamp ≤ 300))
    if w.isEmpty then 0
    else
      let n : ℚ := (w.length : ℚ)
      let u : ℚ := (((w.map (fun m => m.user_id)).dedup).length : ℚ)
      let r : ℚ := ((w.filter truthy_reply).length : ℚ)
      min ((4/10 * (n / 5) + 4/10 * min (u / 3) 1 +
        2/10 * min (r / n) (1/2)) / 2) 1

/-- get_recent_text as the specification words it: join the `limit` most
recent non-empty texts of the chat (take the non-empty texts first, then
keep the last `limit` of them). -/
def get_recent_text_claimed (st : SlidingWindowStore) (chat_id : Int)
    (limit : Nat) : String :=
  let texts := texts_of (get_window st chat_id)
  String.intercalate " " (texts.drop (texts.length - limit))

/-! Concrete example inputs -/

/-- Two same-user messages whose `reply_to_message_id` is the (falsy)
integer 0. -/
def ex_reply_msgs : List StoredMessage :=
  [⟨1, 1, 1, none, 1000, false, some 0⟩,
   ⟨2, 1, 1, none, 1000, false, some 0⟩]

/-- A chat whose newest message has no text and whose older message has
text "a". -/
def ex_store_text : SlidingWindowStore :=
  ⟨[(1, [⟨1, 1, 1, some "a", 0, false, none⟩,
          ⟨2, 1, 1, none, 1, false, none⟩])]⟩

/-- A chat whose only (bot) message is an hour and more old at read time
4000. -/
def ex_store_old_bot : SlidingWindowStore :=
  ⟨[(1, [⟨1, 1, 99, some "hi", 0, true, none⟩])]⟩

/-- A batch whose single message has exactly 18 words. -/
def ex_msg18 : String := "a a a a a a a a a a a a a a a a a a"

/-! Helper lemmas -/

/-- Scanning an appended list stops in the first part iff it holds a bot
message. -/
lemma bot_scan_append (now seconds : ℚ) (l1 l2 : List StoredMessage) :
    bot_scan now seconds (l1 ++ l2) =
      if l1.any (fun m => m.is_bot_message) then bot_scan now seconds l1
      else bot_scan now seconds l2 := by
  induction l1 with
  | nil => simp [bot_scan]
  | cons a t ih =>
    by_cases h : a.is_bot_message
    · simp [bot_scan, h]
    · simp [bot_scan, h, ih]

/-- `most_recent_bot` finds something exactly when a bot message exists. -/
lemma most_recent_bot_isSome (l : List StoredMessage) :
    (most_recent_bot l).isSome = l.any (fun m => m.is_bot_message) := by
  induction l with
  | nil => rfl
  | cons a t ih =>
    unfold most_recent_bot
    cases h : most_recent_bot t with
    | some m =>
      have ih2 : t.any (fun m => m.is_bot_message) = true := by
        rw [← ih, h]; rfl
      rw [List.any_cons, ih2, Bool.or_true]
      rfl
    | none =>
      have ih2 : t.any (fun m => m.is_bot_message) = false := by
        rw [← ih, h]; rfl
      rw [List.any_cons, ih2, Bool.or_false]
      cases hb : a.is_bot_message <;> rfl

/-- The newest-to-oldest scan of the store loop is decided by the most
recent bot-authored message alone. -/
lemma bot_scan_reverse_eq (now seconds : ℚ) (l : List StoredMessage) :
    bot_scan now seconds l.reverse =
      (match most_recent_bot l with
       | some m => decide (now - m.timestamp ≤ seconds)
       | none => false) := by
  induction l with
  | nil => rfl
  | cons a t ih =>
    rw [List.reverse_cons, bot_scan_append]
    have hany : t.reverse.any (fun m => m.is_bot_message) =
        t.any (fun m => m.is_bot_message) := by
      simp [List.any_eq_true]
    rw [hany]
    cases h : most_recent_bot t with
    | some m =>
      have htrue : t.any (fun m => m.is_bot_message) = true := by
        rw [← most_recent_bot_isSome, h]; rfl
      rw [htrue, if_pos rfl, ih, h]
      unfold most_recent_bot
      rw [h]
    | none =>
      have hfa : t.any (fun m => m.is_bot_message) = false := by
        rw [← most_recent_bot_isSome, h]; rfl
      rw [hfa]
      unfold most_recent_bot
      rw [h]
      cases hb : a.is_bot_message <;> simp [bot_scan, hb]

/-- `get_messages` with no limit is the raw window. -/
lemma get_messages_none_eq_window (st : SlidingWindowStore) (chat_id : Int) :
    get_messages st chat_id none = get_window st chat_id := by
  unfold get_messages get_window
  cases st.chat_windows.find? (fun p => p.1 == chat_id) <;> rfl

/-- has_recent_bot_message in terms of the most recent bot message. -/
lemma has_recent_bot_message_eq (st : SlidingWindowStore) (chat_id : Int)
    (now seconds : ℚ) :
    has_recent_bot_message st chat_id now seconds =
      (match most_recent_bot (get_window st chat_id) with
       | some m => decide (now - m.timestamp ≤ seconds)
       | none => false) := by
  unfold has_recent_bot_message
  rw [get_messages_none_eq_window, bot_scan_reverse_eq]

/-- `reset_if_due` preserves `reply_count ≤ message_count`. -/
lemma reset_if_due_le (now : ℚ) (s : QuotaState)
    (h : s.reply_count ≤ s.message_count) :
    (reset_if_due now s).reply_count ≤ (reset_if_due now s).message_count := by
  unfold reset_if_due
  split
  · exact Nat.le_refl 0
  · exact h

/-- `_update_state` adds one to `message_count` and adds one to
`reply_count` exactly on a REPLY decision. -/
lemma update_state_counts (d : DecisionResult) (s : QuotaState) :
    (update_state d s).message_count = s.message_count + 1 ∧
    (update_state d s).reply_count =
      s.reply_count + (if d.action = .reply then 1 else 0) := by
  unfold update_state
  refine ⟨rfl, ?_⟩
  by_cases h : d.action = .reply <;> simp [h]

/-- Counter bookkeeping of one full `should_respond` call. -/
lemma step_counts (cfg : EngineConfig) (s : QuotaState) (inp : CallInput) :
    (should_respond_step cfg s inp).2.message_count =
      (reset_if_due inp.now s).message_count + 1 ∧
    (should_respond_step cfg s inp).2.reply_count =
      (reset_if_due inp.now s).reply_count +
        (if (should_respond_step cfg s inp).1.action = .reply then 1
         else 0) := by
  unfold should_respond_step get_current_quota_usage
  dsimp only
  exact update_state_counts _ _

/-- One `should_respond` call preserves the counter invariant. -/
lemma step_preserves_le (cfg : EngineConfig) (s : QuotaState)
    (inp : CallInput) (h : s.reply_count ≤ s.message_count) :
    (should_respond_step cfg s inp).2.reply_count ≤
      (should_respond_step cfg s inp).2.message_count := by
  have h2 := reset_if_due_le inp.now s h
  rw [(step_counts cfg s inp).1, (step_counts cfg s inp).2]
  by_cases ha : (should_respond_step cfg s inp).1.action = .reply
  · rw [if_pos ha]
    exact Nat.add_le_add h2 (Nat.le_refl 1)
  · rw [if_neg ha, Nat.add_zero]
    exact Nat.le_succ_of_le h2

/-- Any run of `should_respond` calls preserves the counter invariant. -/
lemma run_calls_le (cfg : EngineConfig) (inputs : List CallInput)
    (s : QuotaState) (h : s.reply_count ≤ s.message_count) :
    (run_calls cfg s inputs).reply_count ≤
      (run_calls cfg s inputs).message_count := by
  induction inputs generalizing s with
  | nil => exact h
  | cons inp rest ih =>
    simp only [run_calls]
    exact ih _ (step_preserves_le cfg s inp h)

/-- A lazy quota read on an invariant-respecting state lies in [0, 1]. -/
lemma usage_bounds (now : ℚ) (s : QuotaState)
    (h : s.reply_count ≤ s.message_count) :
    0 ≤ (get_current_quota_usage now s).1 ∧
      (get_current_quota_usage now s).1 ≤ 1 := by
  have h2 := reset_if_due_le now s h
  unfold get_current_quota_usage
  dsimp only
  split
  · exact ⟨le_refl 0, zero_le_one⟩
  · rename_i hmc
    have hpos : (0 : ℚ) < ((reset_if_due now s).message_count : ℚ) :=
      Nat.cast_pos.mpr (Nat.pos_of_ne_zero hmc)
    constructor
    · exact div_nonneg (Nat.cast_nonneg _) (Nat.cast_nonneg _)
    · exact (div_le_one hpos).mpr (Nat.cast_le.mpr h2)

/-! Claim theorems -/

/-- C1: a message whose text is a direct mention of the bot, evaluated
when the time since the last bot message is at least `gap_min_seconds`,
always yields action REPLY with confidence 0.95 and should_process true,
for every quota usage (in particular an exhausted one), every topic heat,
every reply-to-bot flag and both random draws. -/
theorem mention_with_gap_replies (cfg : EngineConfig) (text : String)
    (rb : Bool) (heat quota r5 r6 : ℚ) (ts : TimeSince)
    (hm : is_direct_mention cfg.bot_username text = true)
    (hg : ts.geQ cfg.gap_min_seconds = true) :
    apply_decision_rules cfg
      ⟨is_direct_mention cfg.bot_username text, rb, heat, ts, quota⟩ r5 r6 =
      ⟨.reply, 95/100, true⟩ := by
  simp [apply_decision_rules, hm, hg]

/-- Witness for C1: "@oleg_bot hello" with a 25 s gap and quota usage 1
(≥ the 0.10 target) still gets REPLY 0.95. -/
theorem mention_with_gap_replies_witness :
    apply_decision_rules default_engine_config
      ⟨is_direct_mention default_engine_config.bot_username "@oleg_bot hello",
        false, 0, .fin 25, 1⟩ 0 0 = ⟨.reply, 95/100, true⟩ :=
  mention_with_gap_replies default_engine_config "@oleg_bot hello"
    false 0 1 0 0 (.fin 25) (by decide) (by decide)

/-- C2: a message that is neither a direct mention nor a reply to a bot
message, evaluated while the time since the last bot message is strictly
below `gap_min_seconds`, always yields IGNORE with should_process false,
for every topic heat, quota usage and both random draws. -/
theorem rate_limited_plain_message_ignored (cfg : EngineConfig)
    (text : String) (heat quota r5 r6 : ℚ) (ts : TimeSince)
    (hm : is_direct_mention cfg.bot_username text = false)
    (hl : ts.ltQ cfg.gap_min_seconds = true) :
    apply_decision_rules cfg
      ⟨is_direct_mention cfg.bot_username text, false, heat, ts, quota⟩ r5 r6 =
      ⟨.ignore, 9/10, false⟩ := by
  simp [apply_decision_rules, hm, hl]

/-- Witness for C2: "hello there" 5 s after a bot message is ignored even
with maximal topic heat and zero quota usage. -/
theorem rate_limited_plain_message_ignored_witness :
    apply_decision_rules default_engine_config
      ⟨is_direct_mention default_engine_config.bot_username "hello there",
        false, 1, .fin 5, 0⟩ 0 0 = ⟨.ignore, 9/10, false⟩ :=
  rate_limited_plain_message_ignored default_engine_config "hello there"
    1 0 0 0 (.fin 5) (by decide) (by decide)

/-- C5: when at least 3600 s have elapsed since the last reset, the lazy
quota read zeroes both counters, stamps `last_reset_time` with the current
time and reports usage 0; when less has elapsed, the read leaves the state
(in particular both counters) unchanged. -/
theorem quota_reset_on_read (s : QuotaState) (now : ℚ) :
    (now - s.last_reset_time ≥ 3600 →
      get_current_quota_usage now s = (0, ⟨0, 0, now⟩)) ∧
    (now - s.last_reset_time < 3600 →
      (get_current_quota_usage now s).2 = s) := by
  constructor
  · intro h
    simp [get_current_quota_usage, reset_if_due, h]
  · intro h
    simp [get_current_quota_usage, reset_if_due, not_le.mpr h]

/-- Witness for C5: from counters (5, 2) reset at time 0, a read at 4000
zeroes everything and a read at 100 changes nothing. -/
theorem quota_reset_on_read_witness :
    get_current_quota_usage 4000 ⟨5, 2, 0⟩ = (0, ⟨0, 0, 4000⟩) ∧
    (get_current_quota_usage 100 (⟨5, 2, 0⟩ : QuotaState)).2 = ⟨5, 2, 0⟩ :=
  ⟨(quota_reset_on_read ⟨5, 2, 0⟩ 4000).1 (by norm_num),
   (quota_reset_on_read ⟨5, 2, 0⟩ 100).2 (by norm_num)⟩

/-- C9: `get_messages` with limit 0 returns the entire stored
window, exactly as passing no limit does (Python `if limit:` treats 0 as
falsy). -/
theorem limit_zero_returns_full_window (st : SlidingWindowStore)
    (chat_id : Int) :
    get_messages st chat_id (some 0) = get_window st chat_id ∧
    get_messages st chat_id (some 0) = get_messages st chat_id none := by
  unfold get_messages get_window
  cases st.chat_windows.find? (fun p => p.1 == chat_id) <;> simp

/-- C3 counterexample: on two windowed messages carrying
`reply_to_message_id = 0`, the code (Python truthiness: 0 is falsy, so it
counts no replies) computes heat 11/75, while the claimed formula (r = 2
messages carrying a reply id) gives 59/300. -/
theorem topic_heat_formula_counterexample :
    calculate_topic_heat 1000 ex_reply_msgs ≠
      topic_heat_claimed 1000 ex_reply_msgs := by
  have h1 : calculate_topic_heat 1000 ex_reply_msgs = 11/75 := by
    norm_num [calculate_topic_heat, ex_reply_msgs, truthy_reply,
      List.isEmpty, List.dedup]
  have h2 : topic_heat_claimed 1000 ex_reply_msgs = 59/300 := by
    norm_num [topic_heat_claimed, ex_reply_msgs, List.isEmpty, List.dedup]
  rw [h1, h2]
  norm_num

/-- C3 amended: `_calculate_topic_heat` returns 0 when fewer than 2 recent
messages or none in the trailing 5-minute window, and otherwise
`min((0.4*(n/5) + 0.4*min(u/3,1) + 0.2*min(r/n,0.5))/2, 1)` where `r`
counts the windowed messages whose `reply_to_message_id` is present and
nonzero. -/
theorem topic_heat_formula_amended (now : ℚ)
    (recent_messages : List StoredMessage) :
    calculate_topic_heat now recent_messages =
      topic_heat_amended now recent_messages := by
  unfold calculate_topic_heat topic_heat_amended
  by_cases h1 : recent_messages.length < 2
  · rw [if_pos h1, if_pos h1]
  · rw [if_neg h1, if_neg h1]
    by_cases h2 : (recent_messages.filter
        (fun m => decide (now - m.timestamp ≤ 300))).isEmpty
    · rw [if_pos h2, if_pos h2]
    · rw [if_neg h2, if_neg h2]
      dsimp only
      congr 1
      ring

/-- C6 counterexample: with the chat of `ex_store_text` (older message
with text "a", newest message with no text) and limit 1, the code returns
"", while the claimed behaviour (join the 1 most recent non-empty text)
returns "a". -/
theorem recent_text_counterexample :
    get_recent_text ex_store_text 1 1 = "" ∧
    get_recent_text_claimed ex_store_text 1 1 = "a" := by decide

/-- C6 amended: `get_recent_text` joins with single spaces, oldest first,
the non-empty texts among the `limit` most recent stored messages (not
the `limit` most recent non-empty texts), and returns the empty string
when none of those messages has a non-empty text (hence also for an
unknown chat). -/
theorem recent_text_amended (st : SlidingWindowStore) (chat_id : Int)
    (limit : Nat) :
    get_recent_text st chat_id limit =
      String.intercalate " " (texts_of (get_messages st chat_id (some limit))) ∧
    (texts_of (get_messages st chat_id (some limit)) = [] →
      get_recent_text st chat_id limit = "") := by
  refine ⟨rfl, fun h => ?_⟩
  unfold get_recent_text
  rw [h]
  rfl

/-- Witness for C6 amended: evaluated on `ex_store_text` with limit 1 the
join is over the filtered last message only, giving "". -/
theorem recent_text_amended_witness :
    get_recent_text ex_store_text 1 1 =
      String.intercalate " "
        (texts_of (get_messages ex_store_text 1 (some 1))) ∧
    get_recent_text ex_store_text 1 1 = "" :=
  ⟨(recent_text_amended ex_store_text 1 1).1,
   (recent_text_amended ex_store_text 1 1).2 (by decide)⟩

/-- C8: `analyze_tone` is strict at both thresholds: the batch is
classified "formal" exactly when the average word count of its valid
messages strictly exceeds `formal_length_threshold`, and `has_high_emoji`
holds exactly when the emoji density strictly exceeds
`high_emoji_threshold` (ties at either threshold give "casual" and
false). -/
theorem tone_thresholds_strict (cfg : ToneConfig) (messages : List String)
    (h1 : 0 ≤ cfg.high_emoji_threshold)
    (h2 : 0 ≤ cfg.formal_length_threshold) :
    ((analyze_tone cfg messages).formality_level = "formal" ↔
      calculate_avg_message_length (valid_messages messages) >
        cfg.formal_length_threshold) ∧
    ((analyze_tone cfg messages).has_high_emoji = true ↔
      calculate_emoji_density (valid_messages messages) >
        cfg.high_emoji_threshold) := by
  unfold analyze_tone
  by_cases hm : messages.isEmpty
  · have hnil : messages = [] := by
      cases messages with
      | nil => rfl
      | cons a t => simp [List.isEmpty] at hm
    subst hnil
    rw [if_pos hm]
    constructor
    · exact iff_of_false (by decide) (not_lt.mpr h2)
    · exact iff_of_false (by decide) (not_lt.mpr h1)
  · rw [if_neg hm]
    by_cases hv : (valid_messages messages).isEmpty
    · rw [if_pos hv]
      have hnil2 : valid_messages messages = [] := by
        revert hv
        cases valid_messages messages with
        | nil => intro _; rfl
        | cons a t => intro hv; simp [List.isEmpty] at hv
      rw [hnil2]
      constructor
      · exact iff_of_false (by decide) (not_lt.mpr h2)
      · exact iff_of_false (by decide) (not_lt.mpr h1)
    · rw [if_neg hv]
      dsimp only
      constructor
      · by_cases hf : calculate_avg_message_length (valid_messages messages) >
            cfg.formal_length_threshold
        · rw [if_pos hf]
          exact iff_of_true rfl hf
        · rw [if_neg hf]
          exact iff_of_false (by decide) hf
      · exact decide_eq_true_iff

/-- Witness for C8: a batch of one message with exactly 18 words under
the default thresholds classifies as casual (18 > 18 is false). -/
theorem tone_thresholds_strict_witness :
    ((analyze_tone default_tone_config [ex_msg18]).formality_level =
        "formal" ↔
      calculate_avg_message_length (valid_messages [ex_msg18]) >
        default_tone_config.formal_length_threshold) ∧
    ((analyze_tone default_tone_config [ex_msg18]).has_high_emoji = true ↔
      calculate_emoji_density (valid_messages [ex_msg18]) >
        default_tone_config.high_emoji_threshold) :=
  tone_thresholds_strict default_tone_config [ex_msg18]
    (by norm_num [default_tone_config]) (by norm_num [default_tone_config])

/-- C4: starting from a fresh engine, after any sequence of
`should_respond` calls `reply_count ≤ message_count`; any lazy quota read
on that state yields a usage in [0, 1]; and every further call increments
`message_count` by exactly one and `reply_count` by one exactly when the
decided action is REPLY (both relative to the state left by that call after its
lazy reset check). -/
theorem quota_counters_invariant (cfg : EngineConfig) (t0 : ℚ)
    (inputs : List CallInput) (now : ℚ) (inp : CallInput) :
    (run_calls cfg (init_quota_state t0) inputs).reply_count ≤
      (run_calls cfg (init_quota_state t0) inputs).message_count ∧
    (0 ≤ (get_current_quota_usage now
        (run_calls cfg (init_quota_state t0) inputs)).1 ∧
      (get_current_quota_usage now
        (run_calls cfg (init_quota_state t0) inputs)).1 ≤ 1) ∧
    (should_respond_step cfg (run_calls cfg (init_quota_state t0) inputs)
        inp).2.message_count =
      (reset_if_due inp.now
        (run_calls cfg (init_quota_state t0) inputs)).message_count + 1 ∧
    (should_respond_step cfg (run_calls cfg (init_quota_state t0) inputs)
        inp).2.reply_count =
      (reset_if_due inp.now
        (run_calls cfg (init_quota_state t0) inputs)).reply_count +
        (if (should_respond_step cfg
            (run_calls cfg (init_quota_state t0) inputs) inp).1.action =
            .reply then 1 else 0) := by
  have hrun := run_calls_le cfg inputs (init_quota_state t0) (Nat.le_refl 0)
  exact ⟨hrun, usage_bounds now _ hrun,
    (step_counts cfg _ inp).1, (step_counts cfg _ inp).2⟩

/-- C7: `has_recent_bot_message` is true exactly when the most
recent bot-authored message exists and is within `seconds` of now; the
characterization through `most_recent_bot` shows that newer non-bot
messages never block the probe and older bot messages never influence
it. -/
theorem recent_bot_message_iff (st : SlidingWindowStore) (chat_id : Int)
    (now seconds : ℚ) :
    has_recent_bot_message st chat_id now seconds = true ↔
      ∃ m, most_recent_bot (get_window st chat_id) = some m ∧
        now - m.timestamp ≤ seconds := by
  rw [has_recent_bot_message_eq]
  cases h : most_recent_bot (get_window st chat_id) with
  | none => simp
  | some m => simp

/-- C10: when the most recent bot-authored message of the stored window is
strictly older than 3600 s, `_time_since_last_bot_message` reports
infinity instead of the finite age, so the pacing comparison
`time_since < gap` is false for every gap. -/
theorem stale_bot_message_gives_inf (st : SlidingWindowStore)
    (chat_id : Int) (now : ℚ) (m : StoredMessage)
    (hm : most_recent_bot (get_window st chat_id) = some m)
    (hold : now - m.timestamp > 3600) :
    time_since_last_bot_message st chat_id now = .inf ∧
    ∀ gap : ℚ, (time_since_last_bot_message st chat_id now).ltQ gap =
      false := by
  have hfalse : has_recent_bot_message st chat_id now 3600 = false := by
    rw [has_recent_bot_message_eq, hm]
    exact decide_eq_false (not_le.mpr hold)
  have heq : time_since_last_bot_message st chat_id now = .inf := by
    unfold time_since_last_bot_message
    rw [hfalse]
    simp
  exact ⟨heq, fun gap => by rw [heq]; rfl⟩

/-- Witness for C10: a chat whose only bot message is 4000 s old reports
an infinite gap, and the pacing test against the default 20 s gap is
false. -/
theorem stale_bot_message_gives_inf_witness :
    time_since_last_bot_message ex_store_old_bot 1 4000 = .inf ∧
    (time_since_last_bot_message ex_store_old_bot 1 4000).ltQ 20 =
      false :=
  ⟨(stale_bot_message_gives_inf ex_store_old_bot 1 4000
      ⟨1, 1, 99, some "hi", 0, true, none⟩ (by decide) (by norm_num)).1,
   (stale_bot_message_gives_inf ex_store_old_bot 1 4000
      ⟨1, 1, 99, some "hi", 0, true, none⟩ (by decide) (by norm_num)).2 20⟩

end OlegBot
